import Mathlib

/-!
# GeminiCast — verification of the playback / generation-pipeline spec

Shallow embedding of the GeminiCast single-page client:
* the data model of `src/types.ts` (episode, script, dialogue lines);
* the three provider-facing service functions of the Gemini service module
  (`generateScript`, `generateCoverArt`, `generateAudio`), including their
  payload-extraction logic and their provider-call counts;
* the application state machine of the main component (`handleGenerate`,
  `togglePlayback`, the source `onended` handler), with the asynchronous
  delivery of `ended` events made explicit;
* the visualizer attach step of `AudioVisualizer.tsx`.

JavaScript `undefined` is modelled as `Option.none`; JS string falsiness
(`!s` true for `""` and `undefined`) is modelled explicitly at each use site.
Wall-clock times (`audioContext.currentTime`) are rationals.
-/

set_option autoImplicit false

namespace GeminiCast

/-! ## Data model (`src/types.ts`) -/

inductive LoadingStage
  | IDLE
  | WRITING_SCRIPT
  | GENERATING_ART
  | SYNTHESIZING_AUDIO
  | COMPLETE
  | ERROR
deriving DecidableEq, Repr

inductive Speaker
  | Host
  | Guest
deriving DecidableEq, Repr

structure DialogueLine where
  speaker : Speaker
  text : String
deriving DecidableEq, Repr

structure PodcastScript where
  title : String
  topic : String
  dialogue : List DialogueLine
deriving DecidableEq, Repr

/-- A decoded audio buffer (`AudioBuffer`); only its presence and identity
matter to the claims, so we keep one observable field. -/
structure AudioBuffer where
  frames : Nat
deriving DecidableEq, Repr

structure PodcastEpisode where
  id : String
  script : PodcastScript
  coverImageBase64 : Option String
  audioBuffer : Option AudioBuffer
deriving DecidableEq, Repr

/-! ## Provider response shape (`@google/genai` `GenerateContentResponse`)

All the fields the Gemini service module reads.  Optional fields of the SDK
(`candidates`, `content`, `parts`, `inlineData`) are `Option`s. -/

structure InlineData where
  data : String
deriving DecidableEq, Repr

structure ResponsePart where
  text : Option String
  inlineData : Option InlineData
deriving DecidableEq, Repr

structure ResponseContent where
  parts : Option (List ResponsePart)
deriving DecidableEq, Repr

structure ResponseCandidate where
  content : Option ResponseContent
deriving DecidableEq, Repr

structure GenResponse where
  text : Option String
  candidates : Option (List ResponseCandidate)
deriving DecidableEq, Repr

/-- Errors a generation stage can surface.  `typeError` models a JavaScript
`TypeError` thrown by an unguarded property access on `undefined`, as opposed
to the `Error` objects the service throws deliberately. -/
inductive GenError
  | noScript
  | noImage
  | noAudio
  | parseError (msg : String)
  | decodeError (msg : String)
  | typeError (msg : String)
deriving DecidableEq, Repr

instance instDecEqExcept {ε α : Type} [DecidableEq ε] [DecidableEq α] :
    DecidableEq (Except ε α) := fun a b =>
  match a, b with
  | .ok x, .ok y =>
    if h : x = y then .isTrue (h ▸ rfl)
    else .isFalse (fun hc => h (Except.ok.inj hc))
  | .error e, .error f =>
    if h : e = f then .isTrue (h ▸ rfl)
    else .isFalse (fun hc => h (Except.error.inj hc))
  | .ok _, .error _ => .isFalse (fun hc => Except.noConfusion hc)
  | .error _, .ok _ => .isFalse (fun hc => Except.noConfusion hc)

/-! ## Stage 1: `generateScript`

```js
const text = response.text;
if (!text) throw new Error("No script generated");
return JSON.parse(text) as PodcastScript;
```

`JSON.parse` plus the schema cast is kept abstract as a `parse` parameter;
a parse failure propagates uncaught, modelled as `parseError`. -/

def generateScript (parse : String → Except String PodcastScript)
    (r : GenResponse) : Except GenError PodcastScript :=
  match r.text with
  | none => .error .noScript
  | some t =>
    if t = "" then .error .noScript
    else
      match parse t with
      | .error m => .error (.parseError m)
      | .ok s => .ok s

/-! ## Stage 2: `generateCoverArt`

```js
let base64Data = "";
if (response.candidates && response.candidates[0].content.parts) {
  for (const part of response.candidates[0].content.parts) {
    if (part.inlineData) { base64Data = part.inlineData.data; break; }
  }
}
if (!base64Data) throw new Error("No image generated");
return `data:image/png;base64,` + base64Data;
```

Note the unguarded accesses: with `candidates` present but empty,
`candidates[0]` is `undefined` and reading `.content` throws a `TypeError`;
likewise `.parts` when `candidates[0].content` is `undefined`. -/

/-- The `for`/`break` scan: data of the first part whose `inlineData` is
present (truthy). -/
def firstInlineData : List ResponsePart → Option String
  | [] => none
  | p :: ps =>
    match p.inlineData with
    | some d => some d.data
    | none => firstInlineData ps

def generateCoverArt (r : GenResponse) : Except GenError String :=
  match r.candidates with
  | none => .error .noImage
  | some [] => .error (.typeError "candidates[0] is undefined")
  | some (c :: _) =>
    match c.content with
    | none => .error (.typeError "content is undefined")
    | some ct =>
      match ct.parts with
      | none => .error .noImage
      | some parts =>
        match firstInlineData parts with
        | none => .error .noImage
        | some d =>
          if d = "" then .error .noImage
          else .ok ("data:image/png;base64," ++ d)

/-! ## Stage 3: `generateAudio` — prompt construction and extraction

```js
const scriptText = script.dialogue.map(line => `${line.speaker}: ${line.text}`).join("\n");
const prompt = `Read the following dialogue exactly as written, ...\n\n${scriptText}`;
...
let audioBase64 = "";
if (safeResponse.candidates?.[0]?.content?.parts?.[0]?.inlineData?.data) {
  audioBase64 = safeResponse.candidates[0].content.parts[0].inlineData.data;
}
if (!audioBase64) throw new Error("No audio generated");
```
-/

def speakerName : Speaker → String
  | .Host => "Host"
  | .Guest => "Guest"

/-- One dialogue entry rendered as `speaker: text`. -/
def renderLine (l : DialogueLine) : String :=
  speakerName l.speaker ++ ": " ++ l.text

def scriptLines (s : PodcastScript) : List String :=
  s.dialogue.map renderLine

def scriptText (s : PodcastScript) : String :=
  String.intercalate "\n" (scriptLines s)

def ttsPrompt (s : PodcastScript) : String :=
  "Read the following dialogue exactly as written, assigning the voices to the correct speakers.\n\n"
    ++ scriptText s

/-- The optional chain
`candidates?.[0]?.content?.parts?.[0]?.inlineData?.data`, coerced to `""`
when any link is absent (matching the JS falsiness test that follows it). -/
def firstPartInlineChain (r : GenResponse) : String :=
  match r.candidates with
  | some (c :: _) =>
    match c.content with
    | some ct =>
      match ct.parts with
      | some (p :: _) =>
        match p.inlineData with
        | some d => d.data
        | none => ""
      | _ => ""
    | none => ""
  | _ => ""

def extractAudioData (r : GenResponse) : Except GenError String :=
  let audioBase64 := firstPartInlineChain r
  if audioBase64 = "" then .error .noAudio else .ok audioBase64

/-! ## Provider call accounting

Each provider endpoint is modelled as a stream of responses `Nat → GenResponse`
(the response the endpoint would return to its `n`-th call).  Every service
function threads a call index through the stream, so the number of
`ai.models.generateContent` calls it performs is `next index − start index`. -/

structure ProviderStreams where
  scriptR : Nat → GenResponse
  artR : Nat → GenResponse
  ttsR : Nat → GenResponse

/-- Stage `generateScript` issues exactly one provider call, then extracts/parses. -/
def generateScriptCall (parse : String → Except String PodcastScript)
    (scriptR : Nat → GenResponse) (i : Nat) :
    Except GenError PodcastScript × Nat :=
  (generateScript parse (scriptR i), i + 1)

/-- Stage `generateCoverArt` issues exactly one provider call, then scans for the
inline image payload. -/
def generateCoverArtCall (artR : Nat → GenResponse) (i : Nat) :
    Except GenError String × Nat :=
  (generateCoverArt (artR i), i + 1)

/-- Stage `generateAudio`: the source awaits `ai.models.generateContent` twice with
the same prompt (the binding `response`, whose value is never read, then
`safeResponse` with the re-mapped Guest voice), extracts the payload from
`safeResponse` only, and decodes it via `audioContext.decodeAudioData`
(abstract `decode` parameter). -/
def generateAudioCall (decode : String → Except String AudioBuffer)
    (script : PodcastScript) (ttsR : Nat → GenResponse) (i : Nat) :
    Except GenError AudioBuffer × Nat :=
  let _prompt := ttsPrompt script
  let _response := ttsR i
  let safeResponse := ttsR (i + 1)
  let result : Except GenError AudioBuffer :=
    match extractAudioData safeResponse with
    | .error e => .error e
    | .ok payload =>
      match decode payload with
      | .error m => .error (.decodeError m)
      | .ok buf => .ok buf
  (result, i + 2)

structure PipelineOutcome where
  result : Except GenError (PodcastScript × String × AudioBuffer)
  scriptCalls : Nat
  artCalls : Nat
  ttsCalls : Nat
deriving DecidableEq

/-- The three-stage pipeline of `handleGenerate`: script first, then cover art
and audio joined with `Promise.all` (both stage calls are issued; the joined
result is an error as soon as either branch is). -/
def runPipeline (parse : String → Except String PodcastScript)
    (decode : String → Except String AudioBuffer)
    (ps : ProviderStreams) : PipelineOutcome :=
  match generateScriptCall parse ps.scriptR 0 with
  | (.error e, n1) => ⟨.error e, n1, 0, 0⟩
  | (.ok script, n1) =>
    let art := generateCoverArtCall ps.artR 0
    let audio := generateAudioCall decode script ps.ttsR 0
    match art.1, audio.1 with
    | .ok cover, .ok buf => ⟨.ok (script, cover, buf), n1, art.2, audio.2⟩
    | .error e, _ => ⟨.error e, n1, art.2, audio.2⟩
    | .ok _, .error e => ⟨.error e, n1, art.2, audio.2⟩

/-! ## Application state machine (main component)

State of the component: React state (`topic`, `loadingStage`, `episode`,
`isPlaying`, `error`) plus the refs (`audioContextRef`, `sourceNodeRef`,
`startTimeRef`, `pausedTimeRef`).  A one-shot `AudioBufferSourceNode` is
modelled by the buffer offset it was started at and whether it has been
stopped (by `stop()` or by reaching its natural end).  Stopping an un-stopped
source queues its `ended` event; `pendingEnded` counts queued events whose
handler (the `onended` closure, identical for every source) has not yet run.
`deliverEnded` runs one queued handler. -/

structure SourceNode where
  offset : ℚ
  stopped : Bool
deriving DecidableEq, Repr

structure AppState where
  topic : String
  loadingStage : LoadingStage
  episode : Option PodcastEpisode
  isPlaying : Bool
  error : Option String
  hasAudioContext : Bool
  sourceNode : Option SourceNode
  startTime : ℚ
  pausedTime : ℚ
  pendingEnded : Nat
deriving DecidableEq, Repr

/-- JavaScript `String.prototype.trim`: strip leading and trailing
whitespace.  (Implemented over the character list so that it evaluates by
structural recursion.) -/
def jsTrim (s : String) : String :=
  String.mk
    (((s.toList.dropWhile Char.isWhitespace).reverse.dropWhile Char.isWhitespace).reverse)

/-- Model of `try { sourceNodeRef.current.stop(); } catch(e) {}` — stopping a live
source queues its `ended` event; stopping an already-stopped source does
nothing (and any exception is swallowed). -/
def stopCurrentSource (s : AppState) : AppState :=
  match s.sourceNode with
  | none => s
  | some src =>
    if src.stopped then s
    else
      { s with sourceNode := some { src with stopped := true },
               pendingEnded := s.pendingEnded + 1 }

/-- The message stored by the top-level catch:
`err.message || "Something went wrong creating your podcast."`. -/
def errorMessage : GenError → String
  | .noScript => "No script generated"
  | .noImage => "No image generated"
  | .noAudio => "No audio generated"
  | .parseError m => if m = "" then "Something went wrong creating your podcast." else m
  | .decodeError m => if m = "" then "Something went wrong creating your podcast." else m
  | .typeError m => if m = "" then "Something went wrong creating your podcast." else m

/-- Handler `handleGenerate`: clears error/episode/playing, best-effort-stops the
current source, ensures the audio context, runs the three-stage pipeline, and
either installs the freshly built episode (stage `COMPLETE`) or records the
error (stage `ERROR`).  `newId` stands for `Date.now().toString()`.
Neither `startTimeRef` nor `pausedTimeRef` is written anywhere in it. -/
def handleGenerate (parse : String → Except String PodcastScript)
    (decode : String → Except String AudioBuffer)
    (ps : ProviderStreams) (newId : String) (s : AppState) : AppState :=
  if jsTrim s.topic = "" then s
  else
    let s1 := { s with error := none, episode := none, isPlaying := false }
    let s2 := stopCurrentSource s1
    let s3 := { s2 with hasAudioContext := true }
    let s4 := { s3 with loadingStage := LoadingStage.WRITING_SCRIPT }
    match (runPipeline parse decode ps).result with
    | .error e =>
      { s4 with error := some (errorMessage e),
                loadingStage := LoadingStage.ERROR }
    | .ok (script, cover, buf) =>
      { s4 with episode := some ⟨newId, script, some cover, some buf⟩,
                loadingStage := LoadingStage.COMPLETE }

/-- Handler `togglePlayback` at wall-clock time `now` (`audioContext.currentTime`).
Early return when there is no episode, no decoded buffer, or no audio
context.  Pause path: stop the source (queueing its `ended` event), add the
elapsed segment duration to the paused offset, clear the playing flag — but
only if a source ref exists.  Play path: build a fresh one-shot source
started at the paused offset, record the segment start time, set the playing
flag (the new source gets the `onended` handler). -/
def togglePlayback (now : ℚ) (s : AppState) : AppState :=
  match s.episode with
  | none => s
  | some ep =>
    match ep.audioBuffer with
    | none => s
    | some _ =>
      if s.hasAudioContext = false then s
      else if s.isPlaying then
        match s.sourceNode with
        | none => s
        | some _ =>
          let s1 := stopCurrentSource s
          { s1 with pausedTime := s1.pausedTime + (now - s1.startTime),
                    isPlaying := false }
      else
        { s with sourceNode := some ⟨s.pausedTime, false⟩,
                 startTime := now,
                 isPlaying := true }

/-- A playing source reaches its natural end: it stops itself and queues its
`ended` event. -/
def naturalEnd (s : AppState) : AppState :=
  match s.sourceNode with
  | none => s
  | some src =>
    if src.stopped then s
    else
      { s with sourceNode := some { src with stopped := true },
               pendingEnded := s.pendingEnded + 1 }

/-- Delivery of one queued `ended` event: the `onended` handler runs
`setIsPlaying(false); pausedTimeRef.current = 0;` unconditionally. -/
def deliverEnded (s : AppState) : AppState :=
  match s.pendingEnded with
  | 0 => s
  | n + 1 =>
    { s with pendingEnded := n, isPlaying := false, pausedTime := 0 }

/-! ## Transcript rendering (`renderScript` in the main component)

`renderScript` returns `null` without an episode; otherwise it maps each
dialogue entry to one chat-bubble turn showing the speaker label and the
text. -/

structure RenderedTurn where
  speaker : Speaker
  label : String
  body : String
deriving DecidableEq, Repr

def renderScriptTurns (ep : Option PodcastEpisode) : Option (List RenderedTurn) :=
  match ep with
  | none => none
  | some e =>
    some (e.script.dialogue.map fun l => ⟨l.speaker, speakerName l.speaker, l.text⟩)

/-! ## Visualizer attach step (`AudioVisualizer.tsx` effect body)

The effect lazily creates the analyser (fftSize 256) and then attaches it:

```js
try { sourceNode.connect(analyserRef.current); } catch(e) { }
```

`attachEffect` returns `Except`: an `error` would mean the effect body lets
an exception escape.  `throwOnDup` says whether the underlying `connect`
primitive throws when the connection already exists (the try/catch makes the
outcome independent of it). -/

structure VizState where
  analyserFft : Option Nat
  connected : Bool
deriving DecidableEq, Repr

def attachEffect (throwOnDup : Bool) (v : VizState) : Except String VizState :=
  let v1 :=
    match v.analyserFft with
    | some _ => v
    | none => { v with analyserFft := some 256 }
  match (if v1.connected && throwOnDup then Except.error "already connected"
         else Except.ok ()) with
  | .ok _ => .ok { v1 with connected := true }
  | .error _ => .ok v1

/-! ## Spec-side predicates

These are the only definitions translated from the specification's wording
rather than from the source; they exist to compare the spec's description of
the extraction stages with what the code does. -/

/-- Every part carried anywhere in the response, across all candidates. -/
def allResponseParts (r : GenResponse) : List ResponsePart :=
  match r.candidates with
  | none => []
  | some cs =>
    cs.flatMap fun c =>
      match c.content with
      | none => []
      | some ct => ct.parts.getD []

/-- Modelled from the spec: "no inline image/audio payload is found" — no
part of the response carries an inline data payload at all. -/
def hasAnyInlineData (r : GenResponse) : Bool :=
  (allResponseParts r).any (fun p => p.inlineData.isSome)

/-- The responses on which the cover-art scan runs without hitting an
unguarded `undefined`: either `candidates` is absent, or it is non-empty and
its first candidate has `content`. -/
def imageScanSafe (r : GenResponse) : Bool :=
  match r.candidates with
  | none => true
  | some [] => false
  | some (c :: _) => c.content.isSome

/-! ## Concrete fixtures for witnesses and counterexamples -/

def sampleScript : PodcastScript :=
  ⟨"A Tale of Sushi", "The history of Sushi",
    [⟨.Host, "Welcome to the show."⟩, ⟨.Guest, "Glad to be here."⟩]⟩

def parseSample : String → Except String PodcastScript :=
  fun _ => .ok sampleScript

def decodeSample : String → Except String AudioBuffer :=
  fun _ => .ok ⟨44100⟩

def goodScriptResponse : GenResponse := ⟨some "json-payload", none⟩

def mkSingleCandidate (parts : List ResponsePart) : GenResponse :=
  ⟨none, some [⟨some ⟨some parts⟩⟩]⟩

def goodArtResponse : GenResponse :=
  mkSingleCandidate [⟨none, some ⟨"IMGDATA"⟩⟩]

def goodTtsResponse : GenResponse :=
  mkSingleCandidate [⟨none, some ⟨"AUDIODATA"⟩⟩]

/-- A response with no candidates field at all. -/
def emptyResponse : GenResponse := ⟨none, none⟩

/-- A response whose `candidates` field is a present-but-empty array. -/
def emptyCandidatesResponse : GenResponse := ⟨none, some []⟩

/-- Streams on which all three stages succeed. -/
def goodStreams : ProviderStreams :=
  ⟨fun _ => goodScriptResponse, fun _ => goodArtResponse, fun _ => goodTtsResponse⟩

/-- Streams on which art succeeds but the TTS endpoint returns responses with
no inline audio payload. -/
def emptyAudioStreams : ProviderStreams :=
  ⟨fun _ => goodScriptResponse, fun _ => goodArtResponse, fun _ => emptyResponse⟩

/-- A session state holding a fully generated episode with a decoded buffer,
currently paused at offset 0 with no live source. -/
def playbackReadyState : AppState :=
  { topic := "The history of Sushi"
    loadingStage := .COMPLETE
    episode := some ⟨"1", sampleScript, some "data:image/png;base64,IMGDATA", some ⟨44100⟩⟩
    isPlaying := false
    error := none
    hasAudioContext := true
    sourceNode := none
    startTime := 0
    pausedTime := 0
    pendingEnded := 0 }

/-- The pipeline failed with a stage error: the script stage threw, or the
script stage succeeded and the cover-art or audio stage threw. -/
def stageFailure (parse : String → Except String PodcastScript)
    (decode : String → Except String AudioBuffer) (ps : ProviderStreams) : Prop :=
  (∃ e, generateScript parse (ps.scriptR 0) = .error e) ∨
  (∃ script, generateScript parse (ps.scriptR 0) = .ok script ∧
    ((∃ e, generateCoverArt (ps.artR 0) = .error e) ∨
     (∃ e, (generateAudioCall decode script ps.ttsR 0).1 = .error e)))

/-! # Theorems -/

/-- Helper: stopping the current source never touches the timeline refs or
the React state other than the source itself and the event queue. -/
theorem stopCurrentSource_frame (s : AppState) :
    (stopCurrentSource s).pausedTime = s.pausedTime ∧
    (stopCurrentSource s).startTime = s.startTime ∧
    (stopCurrentSource s).episode = s.episode ∧
    (stopCurrentSource s).isPlaying = s.isPlaying ∧
    (stopCurrentSource s).error = s.error ∧
    (stopCurrentSource s).hasAudioContext = s.hasAudioContext ∧
    (stopCurrentSource s).topic = s.topic := by
  unfold stopCurrentSource
  cases s.sourceNode with
  | none => exact ⟨rfl, rfl, rfl, rfl, rfl, rfl, rfl⟩
  | some src =>
    cases hst : src.stopped <;> simp [hst]

/-- Claim C1 (code bug): with a decoded buffer present, playing at time 0 and
pausing at time 5 does add the elapsed segment duration (5) to the paused
offset — but the `stop()` issued by the pause queues the source's `ended`
event, and when that handler runs it unconditionally zeroes the offset, so
the value does not persist. -/
theorem togglePlayback_pause_then_ended_zeroes_offset :
    (togglePlayback 5 (togglePlayback 0 playbackReadyState)).pausedTime = 5 ∧
    (togglePlayback 5 (togglePlayback 0 playbackReadyState)).isPlaying = false ∧
    (togglePlayback 5 (togglePlayback 0 playbackReadyState)).pendingEnded = 1 ∧
    (deliverEnded (togglePlayback 5 (togglePlayback 0 playbackReadyState))).pausedTime
      = 0 := by
  refine ⟨?_, ?_, ?_, ?_⟩ <;>
    simp [togglePlayback, playbackReadyState, stopCurrentSource, deliverEnded]

/-- Claim C6: when a playing source reaches its natural end and its `ended`
event is delivered, the playing flag clears and the paused offset resets to
zero. -/
theorem natural_end_resets_to_paused_zero (s : AppState) (src : SourceNode)
    (h1 : s.sourceNode = some src) (h2 : src.stopped = false) :
    (deliverEnded (naturalEnd s)).isPlaying = false ∧
    (deliverEnded (naturalEnd s)).pausedTime = 0 := by
  simp [naturalEnd, deliverEnded, h1, h2]

theorem natural_end_resets_to_paused_zero_witness :
    (deliverEnded (naturalEnd (togglePlayback 0 playbackReadyState))).isPlaying = false ∧
    (deliverEnded (naturalEnd (togglePlayback 0 playbackReadyState))).pausedTime = 0 :=
  natural_end_resets_to_paused_zero (togglePlayback 0 playbackReadyState)
    ⟨0, false⟩ rfl rfl

/-- Claim C7: running the visualizer attach step twice never lets an
exception escape: both runs return normally (whether or not the underlying
`connect` primitive throws on a duplicate connection), the connection exists
when the second run re-attempts it, and it still exists afterwards. -/
theorem attachEffect_twice_no_exception (throwOnDup : Bool) (v : VizState) :
    ∃ v1, attachEffect throwOnDup v = .ok v1 ∧ v1.connected = true ∧
      ∃ v2, attachEffect throwOnDup v1 = .ok v2 ∧ v2.connected = true := by
  cases v with
  | mk a c =>
    cases a <;> cases c <;> cases throwOnDup <;>
      exact ⟨_, rfl, rfl, _, rfl, rfl⟩

/-- Claim C8: `togglePlayback` is a no-op when there is no episode, the
episode has no decoded buffer, or there is no audio context: the state —
playing flag, paused offset, segment start time, source — is returned
unchanged. -/
theorem togglePlayback_no_buffer_noop (now : ℚ) (s : AppState)
    (h : s.episode = none ∨
         (∃ ep, s.episode = some ep ∧ ep.audioBuffer = none) ∨
         s.hasAudioContext = false) :
    togglePlayback now s = s := by
  rcases h with h | ⟨ep, hep, hbuf⟩ | h
  · simp [togglePlayback, h]
  · simp [togglePlayback, hep, hbuf]
  · cases hep : s.episode with
    | none => simp [togglePlayback, hep]
    | some ep =>
      cases hbuf : ep.audioBuffer with
      | none => simp [togglePlayback, hep, hbuf]
      | some b => simp [togglePlayback, hep, hbuf, h]

theorem togglePlayback_no_buffer_noop_witness :
    togglePlayback 3 { playbackReadyState with episode := none }
      = { playbackReadyState with episode := none } :=
  togglePlayback_no_buffer_noop 3 { playbackReadyState with episode := none }
    (Or.inl rfl)

/-- Claim C9: the text handed to the speech-synthesis stage has exactly one
rendered entry per dialogue entry, in order, each of the form
`speaker: text`, and the transcript view renders exactly one turn per
dialogue entry. -/
theorem render_one_turn_per_dialogue_entry (ep : PodcastEpisode) :
    (scriptLines ep.script).length = ep.script.dialogue.length ∧
    (∀ i : Nat, (scriptLines ep.script)[i]?
        = (ep.script.dialogue[i]?).map
            (fun l => speakerName l.speaker ++ ": " ++ l.text)) ∧
    scriptText ep.script = String.intercalate "\n" (scriptLines ep.script) ∧
    (∃ turns, renderScriptTurns (some ep) = some turns ∧
      turns.length = ep.script.dialogue.length ∧
      ∀ i : Nat, turns[i]?
          = (ep.script.dialogue[i]?).map
              (fun l => ⟨l.speaker, speakerName l.speaker, l.text⟩)) := by
  refine ⟨List.length_map _ _, fun i => ?_, rfl, ?_⟩
  · cases h : ep.script.dialogue[i]? <;>
      simp [scriptLines, List.getElem?_map, renderLine, h]
  · refine ⟨_, rfl, List.length_map _ _, fun i => ?_⟩
    simp [List.getElem?_map]

/-- Claim C10: the audio extraction looks only at the first part of the first
candidate: if that part carries no inline data, the stage raises the
`noAudio` error even when a later part of the same candidate carries a
non-empty inline audio payload — a payload the cover-art-style scan of all
parts does find and use. -/
theorem generateAudio_ignores_later_parts (p0 : ResponsePart)
    (rest : List ResponsePart) (d : String)
    (hp0 : p0.inlineData = none)
    (hfind : firstInlineData rest = some d) (hd : d ≠ "") :
    extractAudioData (mkSingleCandidate (p0 :: rest)) = .error .noAudio ∧
    generateCoverArt (mkSingleCandidate (p0 :: rest))
      = .ok ("data:image/png;base64," ++ d) := by
  constructor
  · simp [extractAudioData, firstPartInlineChain, mkSingleCandidate, hp0]
  · simp [generateCoverArt, mkSingleCandidate, firstInlineData, hp0, hfind, hd]

theorem generateAudio_ignores_later_parts_witness :
    extractAudioData
        (mkSingleCandidate [⟨some "thinking", none⟩, ⟨none, some ⟨"AUDIODATA"⟩⟩])
      = .error .noAudio ∧
    generateCoverArt
        (mkSingleCandidate [⟨some "thinking", none⟩, ⟨none, some ⟨"AUDIODATA"⟩⟩])
      = .ok ("data:image/png;base64," ++ "AUDIODATA") :=
  generateAudio_ignores_later_parts ⟨some "thinking", none⟩
    [⟨none, some ⟨"AUDIODATA"⟩⟩] "AUDIODATA" rfl rfl (by decide)

/-! ### Helper lemmas about `stopCurrentSource` and `handleGenerate` -/

theorem stopCurrentSource_episode (s : AppState) :
    (stopCurrentSource s).episode = s.episode := by
  unfold stopCurrentSource
  cases s.sourceNode with
  | none => rfl
  | some src => cases hst : src.stopped <;> simp [hst]

theorem stopCurrentSource_pausedTime (s : AppState) :
    (stopCurrentSource s).pausedTime = s.pausedTime := by
  unfold stopCurrentSource
  cases s.sourceNode with
  | none => rfl
  | some src => cases hst : src.stopped <;> simp [hst]

theorem stopCurrentSource_startTime (s : AppState) :
    (stopCurrentSource s).startTime = s.startTime := by
  unfold stopCurrentSource
  cases s.sourceNode with
  | none => rfl
  | some src => cases hst : src.stopped <;> simp [hst]

theorem stopCurrentSource_isPlaying (s : AppState) :
    (stopCurrentSource s).isPlaying = s.isPlaying := by
  unfold stopCurrentSource
  cases s.sourceNode with
  | none => rfl
  | some src => cases hst : src.stopped <;> simp [hst]

theorem stopCurrentSource_error (s : AppState) :
    (stopCurrentSource s).error = s.error := by
  unfold stopCurrentSource
  cases s.sourceNode with
  | none => rfl
  | some src => cases hst : src.stopped <;> simp [hst]

theorem stopCurrentSource_sourceNode (s : AppState) (src : SourceNode)
    (h : s.sourceNode = some src) :
    (stopCurrentSource s).sourceNode = some ⟨src.offset, true⟩ := by
  unfold stopCurrentSource
  rw [h]
  cases src with
  | mk o st => cases st <;> simp_all

/-- The `catch` branch of `handleGenerate` in explicit form. -/
theorem handleGenerate_error_case (parse : String → Except String PodcastScript)
    (decode : String → Except String AudioBuffer) (ps : ProviderStreams)
    (newId : String) (s : AppState) (e : GenError)
    (htopic : ¬ jsTrim s.topic = "")
    (he : (runPipeline parse decode ps).result = .error e) :
    handleGenerate parse decode ps newId s =
      { stopCurrentSource { s with error := none, episode := none, isPlaying := false } with
        hasAudioContext := true,
        loadingStage := LoadingStage.ERROR,
        error := some (errorMessage e) } := by
  unfold handleGenerate
  rw [if_neg htopic, he]

/-- The success branch of `handleGenerate` in explicit form. -/
theorem handleGenerate_ok_case (parse : String → Except String PodcastScript)
    (decode : String → Except String AudioBuffer) (ps : ProviderStreams)
    (newId : String) (s : AppState) (script : PodcastScript) (cover : String)
    (buf : AudioBuffer)
    (htopic : ¬ jsTrim s.topic = "")
    (hok : (runPipeline parse decode ps).result = .ok (script, cover, buf)) :
    handleGenerate parse decode ps newId s =
      { stopCurrentSource { s with error := none, episode := none, isPlaying := false } with
        hasAudioContext := true,
        loadingStage := LoadingStage.COMPLETE,
        episode := some ⟨newId, script, some cover, some buf⟩ } := by
  unfold handleGenerate
  rw [if_neg htopic, hok]

/-- A stage failure makes the joined pipeline fail. -/
theorem runPipeline_error_of_stageFailure (parse : String → Except String PodcastScript)
    (decode : String → Except String AudioBuffer) (ps : ProviderStreams)
    (h : stageFailure parse decode ps) :
    ∃ e, (runPipeline parse decode ps).result = .error e := by
  rcases h with ⟨e, he⟩ | ⟨script, hs, hrest⟩
  · exact ⟨e, by simp [runPipeline, generateScriptCall, he]⟩
  · rcases hrest with ⟨e, he⟩ | ⟨e, he⟩ <;>
    · unfold runPipeline generateScriptCall generateCoverArtCall
      rw [hs]
      cases ha : generateCoverArt (ps.artR 0) <;>
        cases hau : (generateAudioCall decode script ps.ttsR 0).1 <;>
          simp_all

/-! ### Claim C2 -/

/-- Claim C2: if any stage of the generation pipeline fails — the script
stage, the cover-art stage, or the audio stage (including an empty audio
payload while art succeeded) — `handleGenerate` ends with the error state
set, loading stage `ERROR`, and no episode exposed at all. -/
theorem handleGenerate_stage_failure_no_partial_episode
    (parse : String → Except String PodcastScript)
    (decode : String → Except String AudioBuffer) (ps : ProviderStreams)
    (newId : String) (s : AppState)
    (htopic : ¬ jsTrim s.topic = "")
    (hfail : stageFailure parse decode ps) :
    (handleGenerate parse decode ps newId s).episode = none ∧
    (handleGenerate parse decode ps newId s).error.isSome = true ∧
    (handleGenerate parse decode ps newId s).loadingStage = LoadingStage.ERROR := by
  obtain ⟨e, he⟩ := runPipeline_error_of_stageFailure parse decode ps hfail
  rw [handleGenerate_error_case parse decode ps newId s e htopic he]
  refine ⟨?_, rfl, rfl⟩
  rw [show ({ stopCurrentSource { s with error := none, episode := none, isPlaying := false } with
        hasAudioContext := true,
        loadingStage := LoadingStage.ERROR,
        error := some (errorMessage e) } : AppState).episode
      = (stopCurrentSource { s with error := none, episode := none, isPlaying := false }).episode
    from rfl]
  rw [stopCurrentSource_episode]

theorem handleGenerate_stage_failure_no_partial_episode_witness :
    (handleGenerate parseSample decodeSample emptyAudioStreams "2" playbackReadyState).episode
        = none ∧
    (handleGenerate parseSample decodeSample emptyAudioStreams "2" playbackReadyState).error.isSome
        = true ∧
    (handleGenerate parseSample decodeSample emptyAudioStreams "2" playbackReadyState).loadingStage
        = LoadingStage.ERROR :=
  handleGenerate_stage_failure_no_partial_episode parseSample decodeSample
    emptyAudioStreams "2" playbackReadyState (by decide)
    (Or.inr ⟨sampleScript, by decide,
      Or.inr ⟨.noAudio, by decide⟩⟩)

/-! ### Claim C3 -/

/-- Claim C3 counterexample: a concrete fully successful generation — script
parsed, image found, audio payload found and decoded — issues one call to the
script endpoint, one to the image endpoint, and two to the TTS endpoint:
four provider calls, not three. -/
theorem runPipeline_success_four_calls_counterexample :
    (runPipeline parseSample decodeSample goodStreams).result
        = .ok (sampleScript, "data:image/png;base64," ++ "IMGDATA", ⟨44100⟩) ∧
    (runPipeline parseSample decodeSample goodStreams).scriptCalls = 1 ∧
    (runPipeline parseSample decodeSample goodStreams).artCalls = 1 ∧
    (runPipeline parseSample decodeSample goodStreams).ttsCalls = 2 ∧
    (runPipeline parseSample decodeSample goodStreams).scriptCalls
        + (runPipeline parseSample decodeSample goodStreams).artCalls
        + (runPipeline parseSample decodeSample goodStreams).ttsCalls ≠ 3 := by
  decide

/-- Claim C3, amended: every successful end-to-end generation issues exactly
four calls to the provider — one for the script, one for the image, and two
for multi-speaker TTS (the response of the first TTS call is never read). -/
theorem runPipeline_success_call_counts
    (parse : String → Except String PodcastScript)
    (decode : String → Except String AudioBuffer) (ps : ProviderStreams)
    (h : ∃ v, (runPipeline parse decode ps).result = .ok v) :
    (runPipeline parse decode ps).scriptCalls = 1 ∧
    (runPipeline parse decode ps).artCalls = 1 ∧
    (runPipeline parse decode ps).ttsCalls = 2 ∧
    (runPipeline parse decode ps).scriptCalls
        + (runPipeline parse decode ps).artCalls
        + (runPipeline parse decode ps).ttsCalls = 4 := by
  obtain ⟨v, hv⟩ := h
  unfold runPipeline generateScriptCall generateCoverArtCall generateAudioCall at hv ⊢
  cases hs : generateScript parse (ps.scriptR 0) with
  | error e => rw [hs] at hv; simp at hv
  | ok script =>
    cases ha : generateCoverArt (ps.artR 0) with
    | error e => simp
    | ok cover =>
      cases hau : extractAudioData (ps.ttsR (0 + 1)) with
      | error e => simp [hau]
      | ok payload => cases hd : decode payload <;> simp [hau, hd]

theorem runPipeline_success_call_counts_witness :
    (runPipeline parseSample decodeSample goodStreams).scriptCalls = 1 ∧
    (runPipeline parseSample decodeSample goodStreams).artCalls = 1 ∧
    (runPipeline parseSample decodeSample goodStreams).ttsCalls = 2 ∧
    (runPipeline parseSample decodeSample goodStreams).scriptCalls
        + (runPipeline parseSample decodeSample goodStreams).artCalls
        + (runPipeline parseSample decodeSample goodStreams).ttsCalls = 4 :=
  runPipeline_success_call_counts parseSample decodeSample goodStreams
    ⟨(sampleScript, "data:image/png;base64," ++ "IMGDATA", ⟨44100⟩), by decide⟩

/-! ### Claim C4 -/

/-- Claim C4: a successful `handleGenerate` clears the error marker and the
playing flag and best-effort-stops the current source, but writes neither the
paused offset nor the segment start time; so if no `ended` event is delivered
in between, the first `togglePlayback` on the new episode constructs its
source at the previous leftover paused offset, not at zero. -/
theorem handleGenerate_preserves_playback_offsets
    (parse : String → Except String PodcastScript)
    (decode : String → Except String AudioBuffer) (ps : ProviderStreams)
    (newId : String) (s : AppState) (now : ℚ)
    (htopic : ¬ jsTrim s.topic = "")
    (hok : ∃ v, (runPipeline parse decode ps).result = .ok v) :
    (handleGenerate parse decode ps newId s).pausedTime = s.pausedTime ∧
    (handleGenerate parse decode ps newId s).startTime = s.startTime ∧
    (handleGenerate parse decode ps newId s).error = none ∧
    (handleGenerate parse decode ps newId s).isPlaying = false ∧
    (∀ src, s.sourceNode = some src →
      (handleGenerate parse decode ps newId s).sourceNode = some ⟨src.offset, true⟩) ∧
    (togglePlayback now (handleGenerate parse decode ps newId s)).sourceNode
        = some ⟨s.pausedTime, false⟩ ∧
    (togglePlayback now (handleGenerate parse decode ps newId s)).isPlaying = true := by
  obtain ⟨⟨script, cover, buf⟩, hv⟩ := hok
  rw [handleGenerate_ok_case parse decode ps newId s script cover buf htopic hv]
  refine ⟨?_, ?_, ?_, ?_, ?_, ?_, ?_⟩
  · show (stopCurrentSource { s with error := none, episode := none, isPlaying := false }).pausedTime
        = s.pausedTime
    rw [stopCurrentSource_pausedTime]
  · show (stopCurrentSource { s with error := none, episode := none, isPlaying := false }).startTime
        = s.startTime
    rw [stopCurrentSource_startTime]
  · show (stopCurrentSource { s with error := none, episode := none, isPlaying := false }).error
        = none
    rw [stopCurrentSource_error]
  · show (stopCurrentSource { s with error := none, episode := none, isPlaying := false }).isPlaying
        = false
    rw [stopCurrentSource_isPlaying]
  · intro src hsrc
    show (stopCurrentSource { s with error := none, episode := none, isPlaying := false }).sourceNode
        = some ⟨src.offset, true⟩
    exact stopCurrentSource_sourceNode _ src hsrc
  · simp [togglePlayback, stopCurrentSource_isPlaying, stopCurrentSource_pausedTime]
  · simp [togglePlayback, stopCurrentSource_isPlaying]

theorem handleGenerate_preserves_playback_offsets_witness :
    (handleGenerate parseSample decodeSample goodStreams "3"
        { playbackReadyState with pausedTime := 7 }).pausedTime = 7 ∧
    (togglePlayback 9 (handleGenerate parseSample decodeSample goodStreams "3"
        { playbackReadyState with pausedTime := 7 })).sourceNode = some ⟨7, false⟩ :=
  ⟨(handleGenerate_preserves_playback_offsets parseSample decodeSample goodStreams
      "3" { playbackReadyState with pausedTime := 7 } 9 (by decide)
      ⟨(sampleScript, "data:image/png;base64," ++ "IMGDATA", ⟨44100⟩), by decide⟩).1,
   (handleGenerate_preserves_playback_offsets parseSample decodeSample goodStreams
      "3" { playbackReadyState with pausedTime := 7 } 9 (by decide)
      ⟨(sampleScript, "data:image/png;base64," ++ "IMGDATA", ⟨44100⟩), by decide⟩).2.2.2.2.2.1⟩

/-! ### Claim C5 -/

theorem firstInlineData_eq_none (parts : List ResponsePart)
    (h : ∀ p ∈ parts, p.inlineData = none) :
    firstInlineData parts = none := by
  induction parts with
  | nil => rfl
  | cons p ps ih =>
    have hp := h p (List.mem_cons_self p ps)
    rw [firstInlineData, hp]
    exact ih fun q hq => h q (List.mem_cons_of_mem p hq)

theorem no_inline_mem (r : GenResponse) (h : hasAnyInlineData r = false) :
    ∀ p ∈ allResponseParts r, p.inlineData = none := by
  intro p hp
  unfold hasAnyInlineData at h
  rw [List.any_eq_false] at h
  have := h p hp
  cases hd : p.inlineData with
  | none => rfl
  | some d => rw [hd] at this; simp at this

theorem firstPartInlineChain_empty (r : GenResponse)
    (h : ∀ p ∈ allResponseParts r, p.inlineData = none) :
    firstPartInlineChain r = "" := by
  unfold firstPartInlineChain
  cases hc : r.candidates with
  | none => rfl
  | some cs =>
    cases cs with
    | nil => rfl
    | cons c rest =>
      cases hct : c.content with
      | none => simp [hct]
      | some ct =>
        cases hp : ct.parts with
        | none => simp [hct, hp]
        | some parts =>
          cases parts with
          | nil => simp [hct, hp]
          | cons p ps =>
            have hmem : p ∈ allResponseParts r := by
              unfold allResponseParts
              rw [hc]
              refine List.mem_flatMap.mpr ⟨c, List.mem_cons_self c rest, ?_⟩
              simp [hct, hp]
            simp [hct, hp, h p hmem]

/-- Claim C5 counterexample: a response whose `candidates` field is a
present-but-empty array carries no inline payload at all, yet the cover-art
stage does not raise the `noImage` ("No image generated") condition — the
unguarded `candidates[0].content` access fails with a type error instead. -/
theorem generateCoverArt_empty_candidates_type_error :
    hasAnyInlineData emptyCandidatesResponse = false ∧
    imageScanSafe emptyCandidatesResponse = false ∧
    generateCoverArt emptyCandidatesResponse
        = .error (.typeError "candidates[0] is undefined") ∧
    generateCoverArt emptyCandidatesResponse ≠ .error .noImage := by
  decide

/-- Claim C5, amended: each stage raises its own distinct error on an empty
response and returns no value — the script stage raises `noScript` when the
provider returns no text (absent or empty), the audio stage raises `noAudio`
when no inline payload is present anywhere in the response, and the image
stage raises `noImage` when no inline payload is present anywhere, provided
its scan does not hit an unguarded `undefined` (`candidates` must not be a
present-but-empty list and the first candidate must have `content`); in the
excluded cases the image stage fails with a type error instead. -/
theorem stages_empty_response_distinct_errors
    (parse : String → Except String PodcastScript) (r₁ r₂ r₃ : GenResponse)
    (h1 : r₁.text = none ∨ r₁.text = some "")
    (h2s : imageScanSafe r₂ = true)
    (h2 : hasAnyInlineData r₂ = false)
    (h3 : hasAnyInlineData r₃ = false) :
    generateScript parse r₁ = .error .noScript ∧
    generateCoverArt r₂ = .error .noImage ∧
    extractAudioData r₃ = .error .noAudio := by
  refine ⟨?_, ?_, ?_⟩
  · rcases h1 with h | h <;> simp [generateScript, h]
  · unfold generateCoverArt
    cases hc : r₂.candidates with
    | none => rfl
    | some cs =>
      cases cs with
      | nil => rw [imageScanSafe, hc] at h2s; simp at h2s
      | cons c rest =>
        cases hct : c.content with
        | none => rw [imageScanSafe, hc] at h2s; simp [hct] at h2s
        | some ct =>
          cases hp : ct.parts with
          | none => simp [hct, hp]
          | some parts =>
            have hnone : firstInlineData parts = none := by
              refine firstInlineData_eq_none parts fun p hp2 => ?_
              refine no_inline_mem r₂ h2 p ?_
              unfold allResponseParts
              rw [hc]
              refine List.mem_flatMap.mpr ⟨c, List.mem_cons_self c rest, ?_⟩
              simp [hct, hp, hp2]
            simp [hct, hp, hnone]
  · have : firstPartInlineChain r₃ = "" :=
      firstPartInlineChain_empty r₃ (no_inline_mem r₃ h3)
    simp [extractAudioData, this]

theorem stages_empty_response_distinct_errors_witness :
    generateScript parseSample emptyResponse = .error .noScript ∧
    generateCoverArt emptyResponse = .error .noImage ∧
    extractAudioData emptyResponse = .error .noAudio :=
  stages_empty_response_distinct_errors parseSample emptyResponse emptyResponse
    emptyResponse (Or.inl rfl) rfl rfl rfl

end GeminiCast
